import Mathlib

/-!
# DocGen GUI — style-configuration model and template engine

A shallow embedding of the configuration core of `src/doc_gen_gui.py`
(class `DocGenGUI`).  The live style configuration, the active-template
label (`template_var`) and the selected input file are the relevant
mutable state; every GUI event handler becomes an explicit state
transformer.  Values read from widgets (spinbox text, combobox choices,
checkbox/radiobutton variables) enter as handler arguments: a spinbox
holds free-form text, so a margin edit receives the result of Python's
`float(text)` as `Option ℚ` (`none` models the `ValueError` branch).
Python floats are modelled as rationals (all literals in the source are
exact decimals).

Each handler also reports the error condition it surfaces to the user,
as an `Option Condition` second component.  The source's edit and
template handlers raise no exception and open no error dialog on any
path, so that component is `none` throughout; informational dialogs
(`messagebox.showinfo`) are not error conditions.
-/

/-- Line spacing as stored in the configuration dict: one of the numeric
multiples offered by the radio buttons, or the literal marker `"fixed"`
(`setup_document_tab`, the `spacings` list). -/
inductive LineSpacing where
  | mult (x : ℚ)
  | fixed
deriving DecidableEq, Repr

/-- The `document` record of the configuration dict
(`get_default_style`, lines 34–39). -/
structure DocumentSettings where
  margin_top : ℚ
  margin_bottom : ℚ
  margin_left : ℚ
  margin_right : ℚ
  line_spacing : LineSpacing
  font_family : String
  font_size : Int
deriving DecidableEq, Repr

/-- An element style record (`title`, `heading1`, `heading2`, `body`,
`signature`).  In the source these are dicts; only the `body` dict
carries the key `first_line_indent`, so that field is an `Option`
(`none` = key absent). -/
structure ElementStyle where
  font_family : String
  font_size : Int
  bold : Bool
  alignment : String
  first_line_indent : Option Int := none
deriving DecidableEq, Repr

/-- The whole `style_config` dict: one record per element category. -/
structure StyleConfig where
  document : DocumentSettings
  title : ElementStyle
  heading1 : ElementStyle
  heading2 : ElementStyle
  body : ElementStyle
  signature : ElementStyle
deriving DecidableEq, Repr

/-- The five element-level categories (dict keys other than
`"document"`). -/
inductive ElemKey where
  | title
  | heading1
  | heading2
  | body
  | signature
deriving DecidableEq, Repr

/-- Dict read `style_config[element]` for an element-level key. -/
def StyleConfig.getE (c : StyleConfig) : ElemKey → ElementStyle
  | .title => c.title
  | .heading1 => c.heading1
  | .heading2 => c.heading2
  | .body => c.body
  | .signature => c.signature

/-- Dict write `style_config[element] = e` for an element-level key. -/
def StyleConfig.setE (c : StyleConfig) : ElemKey → ElementStyle → StyleConfig
  | .title, e => { c with title := e }
  | .heading1, e => { c with heading1 := e }
  | .heading2, e => { c with heading2 := e }
  | .body, e => { c with body := e }
  | .signature, e => { c with signature := e }

/-- The four margin keys of the `document` record. -/
inductive MarginKey where
  | margin_top
  | margin_bottom
  | margin_left
  | margin_right
deriving DecidableEq, Repr

/-- Dict read `style_config["document"][key]` for a margin key. -/
def DocumentSettings.getMargin (d : DocumentSettings) : MarginKey → ℚ
  | .margin_top => d.margin_top
  | .margin_bottom => d.margin_bottom
  | .margin_left => d.margin_left
  | .margin_right => d.margin_right

/-- Dict write `style_config["document"][key] = v` for a margin key. -/
def DocumentSettings.setMargin (d : DocumentSettings) : MarginKey → ℚ → DocumentSettings
  | .margin_top, v => { d with margin_top := v }
  | .margin_bottom, v => { d with margin_bottom := v }
  | .margin_left, v => { d with margin_left := v }
  | .margin_right, v => { d with margin_right := v }

/-- `DocGenGUI.get_default_style` (lines 31–45): the literal default
(GB/T 9704-2012) configuration returned by the method. -/
def get_default_style : StyleConfig where
  document :=
    { margin_top := mkRat 37 10, margin_bottom := mkRat 35 10
      margin_left := mkRat 28 10, margin_right := mkRat 26 10
      line_spacing := .mult (mkRat 3 2)
      font_family := "仿宋_GB2312", font_size := 16 }
  title := { font_family := "黑体", font_size := 22, bold := true, alignment := "center" }
  heading1 := { font_family := "黑体", font_size := 16, bold := true, alignment := "left" }
  heading2 := { font_family := "楷体_GB2312", font_size := 15, bold := false, alignment := "left" }
  body := { font_family := "仿宋_GB2312", font_size := 16, bold := false, alignment := "left",
            first_line_indent := some 2 }
  signature := { font_family := "仿宋_GB2312", font_size := 16, bold := false, alignment := "right" }

/-- The literal configuration assigned by `DocGenGUI.apply_formal_style`
(lines 344–355). -/
def formalStyle : StyleConfig where
  document :=
    { margin_top := mkRat 25 10, margin_bottom := mkRat 25 10
      margin_left := 3, margin_right := mkRat 25 10
      line_spacing := .mult (mkRat 3 2)
      font_family := "宋体", font_size := 14 }
  title := { font_family := "黑体", font_size := 20, bold := true, alignment := "center" }
  heading1 := { font_family := "黑体", font_size := 16, bold := true, alignment := "left" }
  heading2 := { font_family := "宋体", font_size := 14, bold := true, alignment := "left" }
  body := { font_family := "宋体", font_size := 14, bold := false, alignment := "left",
            first_line_indent := some 2 }
  signature := { font_family := "宋体", font_size := 14, bold := false, alignment := "right" }

/-- The literal configuration assigned by `DocGenGUI.apply_academic_style`
(lines 357–368). -/
def academicStyle : StyleConfig where
  document :=
    { margin_top := mkRat 25 10, margin_bottom := mkRat 25 10
      margin_left := 3, margin_right := mkRat 25 10
      line_spacing := .mult 2
      font_family := "宋体", font_size := 12 }
  title := { font_family := "黑体", font_size := 18, bold := true, alignment := "center" }
  heading1 := { font_family := "黑体", font_size := 15, bold := true, alignment := "left" }
  heading2 := { font_family := "黑体", font_size := 14, bold := true, alignment := "left" }
  body := { font_family := "宋体", font_size := 12, bold := false, alignment := "justify",
            first_line_indent := some 2 }
  signature := { font_family := "宋体", font_size := 12, bold := false, alignment := "right" }

/-- The spec's error taxonomy (§7).  The edit and template handlers in
the source never surface any of these; `format_document` surfaces only
formatter failures (`RenderFailure`, via `messagebox.showerror`). -/
inductive Condition where
  | UnknownTemplate
  | InvalidValue
  | ValidationFailure
  | RenderFailure
deriving DecidableEq, Repr

/-- The configuration-relevant state of a `DocGenGUI` instance:
`self.style_config`, the active-template label `self.template_var`, and
`self.input_file`. -/
structure GUIState where
  style_config : StyleConfig
  template_var : String
  input_file : Option String
deriving DecidableEq, Repr

/-- The state built by `DocGenGUI.__init__` together with
`setup_ui` (`template_var` starts as `"default"`, line 67). -/
def initState : GUIState where
  style_config := get_default_style
  template_var := "default"
  input_file := none

/-- `DocGenGUI.reset_styles` (lines 337–342): wholesale replacement by
the default configuration and label reset.  The `showinfo` dialog is
informational, not an error condition. -/
def reset_styles (s : GUIState) : GUIState × Option Condition :=
  ({ s with style_config := get_default_style, template_var := "default" }, none)

/-- `DocGenGUI.apply_formal_style` (lines 344–355): wholesale
replacement of `style_config`; `template_var` is not written here. -/
def apply_formal_style (s : GUIState) : GUIState × Option Condition :=
  ({ s with style_config := formalStyle }, none)

/-- `DocGenGUI.apply_academic_style` (lines 357–368). -/
def apply_academic_style (s : GUIState) : GUIState × Option Condition :=
  ({ s with style_config := academicStyle }, none)

/-- `DocGenGUI.on_template_change` (lines 231–239): dispatch on the
current value of `template_var`.  Any value outside the three built-in
names (including `"custom"`) falls through every branch: no state
change, no exception, no dialog. -/
def on_template_change (s : GUIState) : GUIState × Option Condition :=
  if s.template_var = "default" then reset_styles s
  else if s.template_var = "formal" then apply_formal_style s
  else if s.template_var = "academic" then apply_academic_style s
  else (s, none)

/-- `DocGenGUI.update_margin` (lines 241–248): `float(spinbox.get())`
either raises `ValueError` — caught and ignored (`parsed = none`) — or
yields a number that is written verbatim into
`style_config["document"][key]`.  No domain check, and `template_var`
is not touched. -/
def update_margin (s : GUIState) (key : MarginKey) (parsed : Option ℚ) :
    GUIState × Option Condition :=
  match parsed with
  | none => (s, none)
  | some v =>
    ({ s with style_config :=
        { s.style_config with document := s.style_config.document.setMargin key v } },
     none)

/-- The two document-level edits routed through `DocGenGUI.update_style`
by `setup_document_tab`: the font-size combobox binding (line 160) and
the line-spacing radio buttons (lines 166–169). -/
inductive DocEdit where
  | fontSize (v : Int)
  | lineSpacing (v : LineSpacing)
deriving DecidableEq, Repr

/-- `DocGenGUI.update_style` (lines 250–254) at its two call sites:
writes `style_config["document"][key] = value` and sets `template_var`
to `"custom"`. -/
def update_style (s : GUIState) : DocEdit → GUIState × Option Condition
  | .fontSize v =>
    ({ s with
        style_config :=
          { s.style_config with document := { s.style_config.document with font_size := v } }
        template_var := "custom" }, none)
  | .lineSpacing v =>
    ({ s with
        style_config :=
          { s.style_config with document := { s.style_config.document with line_spacing := v } }
        template_var := "custom" }, none)

/-- `DocGenGUI.update_font` (lines 256–260): writes the chosen family
into `style_config[element]["font_family"]` and marks `custom`. -/
def update_font (s : GUIState) (element : ElemKey) (font : String) :
    GUIState × Option Condition :=
  ({ s with
      style_config :=
        s.style_config.setE element { s.style_config.getE element with font_family := font }
      template_var := "custom" }, none)

/-- `DocGenGUI.update_size` (lines 262–266): `int(combo.get())` — the
size combobox is read-only, so the text is always an integer — written
verbatim, then mark `custom`. -/
def update_size (s : GUIState) (element : ElemKey) (size : Int) :
    GUIState × Option Condition :=
  ({ s with
      style_config :=
        s.style_config.setE element { s.style_config.getE element with font_size := size }
      template_var := "custom" }, none)

/-- `DocGenGUI.update_bold` (lines 268–272). -/
def update_bold (s : GUIState) (element : ElemKey) (bold : Bool) :
    GUIState × Option Condition :=
  ({ s with
      style_config :=
        s.style_config.setE element { s.style_config.getE element with bold := bold }
      template_var := "custom" }, none)

/-- `DocGenGUI.update_alignment` (lines 274–278): the radio value is one
of `"left"`, `"center"`, `"right"`. -/
def update_alignment (s : GUIState) (element : ElemKey) (align : String) :
    GUIState × Option Condition :=
  ({ s with
      style_config :=
        s.style_config.setE element { s.style_config.getE element with alignment := align }
      template_var := "custom" }, none)

/-- `DocGenGUI.update_indent` (lines 280–283): writes `2` when the
checkbox is on, `0` when it is off, always into `body`. -/
def update_indent (s : GUIState) (checked : Bool) : GUIState × Option Condition :=
  ({ s with
      style_config :=
        s.style_config.setE .body
          { s.style_config.getE .body with first_line_indent := some (if checked then 2 else 0) }
      template_var := "custom" }, none)

/-- `DocGenGUI.select_file` (lines 285–292): `none` models a cancelled
(or empty) file dialog, which leaves the state alone. -/
def select_file (s : GUIState) (filename : Option String) : GUIState :=
  match filename with
  | none => s
  | some f => { s with input_file := some f }

/-- One user-visible event the configuration state reacts to.  A
template radio button first writes its value into `template_var` and
then fires `on_template_change`; the document font-size combobox
binding (line 160) passes the constant `16` to `update_style` no matter
which entry was chosen, so the chosen text is carried but unused. -/
inductive GUIAction where
  | selectTemplate (t : String)
  | resetClick
  | updateMargin (k : MarginKey) (parsed : Option ℚ)
  | docFontSizeSelected (chosen : String)
  | lineSpacingSelected (v : LineSpacing)
  | updateFont (k : ElemKey) (font : String)
  | updateSize (k : ElemKey) (size : Int)
  | updateBold (k : ElemKey) (b : Bool)
  | updateAlignment (k : ElemKey) (a : String)
  | updateIndent (checked : Bool)
  | selectFile (f : Option String)
deriving Repr

/-- Event dispatch: which handler each event invokes, as wired up in
`setup_ui`, `setup_document_tab` and `setup_element_tab`. -/
def step (s : GUIState) : GUIAction → GUIState × Option Condition
  | .selectTemplate t => on_template_change { s with template_var := t }
  | .resetClick => reset_styles s
  | .updateMargin k parsed => update_margin s k parsed
  | .docFontSizeSelected _ => update_style s (.fontSize 16)
  | .lineSpacingSelected v => update_style s (.lineSpacing v)
  | .updateFont k font => update_font s k font
  | .updateSize k size => update_size s k size
  | .updateBold k b => update_bold s k b
  | .updateAlignment k a => update_alignment s k a
  | .updateIndent checked => update_indent s checked
  | .selectFile f => (select_file s f, none)

/-- A whole session: the states reachable from `initState` are exactly
the `run initState acts`. -/
def run (s : GUIState) : List GUIAction → GUIState
  | [] => s
  | a :: rest => run (step s a).1 rest

/-- The catalog of built-in template configurations, as dispatched by
`on_template_change`; names outside the three built-ins resolve to
nothing. -/
def templateStyle : String → Option StyleConfig
  | "default" => some get_default_style
  | "formal" => some formalStyle
  | "academic" => some academicStyle
  | _ => none

/-- One argument of the formatter call made by
`DocGenGUI.format_document` (lines 321–330): the configuration handed
to `DocumentFormatter`, the input path, the chosen output path, and
which of the two formatter entry points is used. -/
structure RenderCall where
  config : StyleConfig
  inputPath : String
  outputPath : String
  fromWord : Bool
deriving DecidableEq, Repr

/-- `DocGenGUI.format_document` (lines 306–335): bail out (warning
dialog) when no input file is selected, bail out silently when the
save dialog is cancelled, otherwise invoke the formatter with
`self.style_config` as is — there is no validation step on this path. -/
def format_document (s : GUIState) (outputChoice : Option String) : Option RenderCall :=
  match s.input_file with
  | none => none
  | some inp =>
    match outputChoice with
    | none => none
    | some out =>
      some { config := s.style_config, inputPath := inp, outputPath := out
             fromWord := inp.endsWith ".docx" }

/-- Modelled from the spec: the repository contains no
`ConfigValidator` (no handler checks a domain and `format_document`
validates nothing), so the §3 invariants are transcribed from the
spec's words: all six categories present (guaranteed by the record
type), `body` carries `first_line_indent` with a non-negative value,
margins and font sizes strictly positive, alignment in
{left, center, right, justify} and line spacing in
{1.0, 1.5, 2.0, fixed}. -/
def validAlignment (a : String) : Bool :=
  a = "left" || a = "center" || a = "right" || a = "justify"

/-- Modelled from the spec: the line-spacing domain of §3. -/
def validLineSpacing : LineSpacing → Bool
  | .mult x => x = 1 || x = mkRat 3 2 || x = 2
  | .fixed => true

/-- Modelled from the spec: the element-record invariants of §3
(positive font size, enumerated alignment). -/
def validElem (e : ElementStyle) : Bool :=
  decide (0 < e.font_size) && validAlignment e.alignment

/-- Modelled from the spec: `ConfigValidator.validate` as a pass/fail
check of every §3 invariant. -/
def validate (c : StyleConfig) : Bool :=
  decide (0 < c.document.margin_top) && decide (0 < c.document.margin_bottom) &&
  decide (0 < c.document.margin_left) && decide (0 < c.document.margin_right) &&
  validLineSpacing c.document.line_spacing && decide (0 < c.document.font_size) &&
  validElem c.title && validElem c.heading1 && validElem c.heading2 &&
  validElem c.body && validElem c.signature &&
  (match c.body.first_line_indent with
   | some n => decide (0 ≤ n)
   | none => false)

/-- The C10 invariant: the body indent is always the checkbox-off value
`0` or the conventional two-character indent `2`. -/
def indentOK (c : StyleConfig) : Prop :=
  c.body.first_line_indent = some 0 ∨ c.body.first_line_indent = some 2

instance (c : StyleConfig) : Decidable (indentOK c) := by
  unfold indentOK
  infer_instance

/-! ## Helper lemmas about the dict read/write pairs -/

theorem getE_setE_frame (c : StyleConfig) (k j : ElemKey) (e : ElementStyle) :
    (c.setE k e).getE j = if j = k then e else c.getE j := by
  cases k <;> cases j <;> rfl

theorem document_setE (c : StyleConfig) (k : ElemKey) (e : ElementStyle) :
    (c.setE k e).document = c.document := by
  cases k <;> rfl

theorem getMargin_setMargin (d : DocumentSettings) (k j : MarginKey) (v : ℚ) :
    (d.setMargin k v).getMargin j = if j = k then v else d.getMargin j := by
  cases k <;> cases j <;> rfl

/-! ## The claims -/

/-- C3: after any sequence of GUI events, selecting the `default`
template replaces the live configuration with exactly the literal
GB/T 9704-2012 default — margins (3.7, 3.5, 2.8, 2.6) cm, line spacing
1.5, document font 仿宋_GB2312 16; title 黑体 22 bold center; heading1
黑体 16 bold left; heading2 楷体_GB2312 15 not-bold left; body
仿宋_GB2312 16 not-bold left with first-line indent 2; signature
仿宋_GB2312 16 not-bold right — and sets the label to `default`. -/
theorem default_template_restores_literal (acts : List GUIAction) :
    (step (run initState acts) (.selectTemplate "default")).1.style_config =
      { document :=
          { margin_top := mkRat 37 10, margin_bottom := mkRat 35 10
            margin_left := mkRat 28 10, margin_right := mkRat 26 10
            line_spacing := .mult (mkRat 3 2)
            font_family := "仿宋_GB2312", font_size := 16 }
        title := { font_family := "黑体", font_size := 22, bold := true, alignment := "center" }
        heading1 := { font_family := "黑体", font_size := 16, bold := true, alignment := "left" }
        heading2 := { font_family := "楷体_GB2312", font_size := 15, bold := false,
                      alignment := "left" }
        body := { font_family := "仿宋_GB2312", font_size := 16, bold := false,
                  alignment := "left", first_line_indent := some 2 }
        signature := { font_family := "仿宋_GB2312", font_size := 16, bold := false,
                       alignment := "right" } } ∧
    (step (run initState acts) (.selectTemplate "default")).1.template_var = "default" :=
  ⟨rfl, rfl⟩

/-- C4: each of the three built-in templates resolves to a configuration
that passes every §3 invariant of the (spec-modelled) validator. -/
theorem builtin_templates_pass_validate :
    (templateStyle "default").map validate = some true ∧
    (templateStyle "formal").map validate = some true ∧
    (templateStyle "academic").map validate = some true :=
  ⟨rfl, rfl, rfl⟩

/-- C5: resolving a built-in template reads no mutable state, so however
the live configuration has been mutated since a first resolve, a later
resolve of the same name yields the identical configuration. -/
theorem resolve_copy_independent (s : GUIState) (edits : List GUIAction) :
    (step (run (step s (.selectTemplate "default")).1 edits)
        (.selectTemplate "default")).1.style_config =
      (step s (.selectTemplate "default")).1.style_config ∧
    (step (run (step s (.selectTemplate "formal")).1 edits)
        (.selectTemplate "formal")).1.style_config =
      (step s (.selectTemplate "formal")).1.style_config ∧
    (step (run (step s (.selectTemplate "academic")).1 edits)
        (.selectTemplate "academic")).1.style_config =
      (step s (.selectTemplate "academic")).1.style_config :=
  ⟨rfl, rfl, rfl⟩

/-- C6: loading `formal`, then `academic`, then `default` leaves the
live configuration, after each load, equal to a fresh resolution of
that same name, whatever state the session started in. -/
theorem template_sequence_loads_fresh (s : GUIState) :
    some (step s (.selectTemplate "formal")).1.style_config = templateStyle "formal" ∧
    some (step (step s (.selectTemplate "formal")).1
        (.selectTemplate "academic")).1.style_config = templateStyle "academic" ∧
    some (step (step (step s (.selectTemplate "formal")).1 (.selectTemplate "academic")).1
        (.selectTemplate "default")).1.style_config = templateStyle "default" :=
  ⟨rfl, rfl, rfl⟩

/-- C9: the document font-size combobox handler passes the constant 16
to `update_style` (source line 160), so whatever entry the user picks,
`document.font_size` becomes 16 and the label flips to `custom`. -/
theorem doc_font_size_selection_writes_16 (s : GUIState) (chosen : String) :
    (step s (.docFontSizeSelected chosen)).1.style_config.document.font_size = 16 ∧
    (step s (.docFontSizeSelected chosen)).1.template_var = "custom" :=
  ⟨rfl, rfl⟩

/-- C1 is false as stated: a valid margin edit (4.0 cm into
`margin_top`) writes the field, but `update_margin` never touches
`template_var`, so the label stays `default` instead of becoming
`custom`. -/
theorem margin_edit_keeps_label_cex :
    (step initState (.updateMargin .margin_top (some 4))).1.style_config.document.margin_top
      = 4 ∧
    ¬ (step initState (.updateMargin .margin_top (some 4))).1.template_var = "custom" :=
  ⟨rfl, by decide⟩

/-- C1 (amended): every single-attribute edit writes exactly its one
field and leaves every sibling field unchanged; the element-level edits
and the two `update_style` document edits additionally set the label to
`custom`, but a margin edit leaves the label untouched.  No edit
surfaces a condition. -/
theorem single_attribute_edit_frame (s : GUIState) :
    (∀ (k : MarginKey) (v : ℚ),
      (∀ j : MarginKey,
        (update_margin s k (some v)).1.style_config.document.getMargin j =
          if j = k then v else s.style_config.document.getMargin j) ∧
      (update_margin s k (some v)).1.style_config.document.line_spacing =
        s.style_config.document.line_spacing ∧
      (update_margin s k (some v)).1.style_config.document.font_family =
        s.style_config.document.font_family ∧
      (update_margin s k (some v)).1.style_config.document.font_size =
        s.style_config.document.font_size ∧
      (∀ e : ElemKey,
        (update_margin s k (some v)).1.style_config.getE e = s.style_config.getE e) ∧
      (update_margin s k (some v)).1.template_var = s.template_var ∧
      (update_margin s k (some v)).2 = none) ∧
    (∀ v : Int,
      (update_style s (.fontSize v)).1.style_config.document.font_size = v ∧
      (∀ j : MarginKey,
        (update_style s (.fontSize v)).1.style_config.document.getMargin j =
          s.style_config.document.getMargin j) ∧
      (update_style s (.fontSize v)).1.style_config.document.line_spacing =
        s.style_config.document.line_spacing ∧
      (update_style s (.fontSize v)).1.style_config.document.font_family =
        s.style_config.document.font_family ∧
      (∀ e : ElemKey,
        (update_style s (.fontSize v)).1.style_config.getE e = s.style_config.getE e) ∧
      (update_style s (.fontSize v)).1.template_var = "custom" ∧
      (update_style s (.fontSize v)).2 = none) ∧
    (∀ v : LineSpacing,
      (update_style s (.lineSpacing v)).1.style_config.document.line_spacing = v ∧
      (∀ j : MarginKey,
        (update_style s (.lineSpacing v)).1.style_config.document.getMargin j =
          s.style_config.document.getMargin j) ∧
      (update_style s (.lineSpacing v)).1.style_config.document.font_family =
        s.style_config.document.font_family ∧
      (update_style s (.lineSpacing v)).1.style_config.document.font_size =
        s.style_config.document.font_size ∧
      (∀ e : ElemKey,
        (update_style s (.lineSpacing v)).1.style_config.getE e = s.style_config.getE e) ∧
      (update_style s (.lineSpacing v)).1.template_var = "custom" ∧
      (update_style s (.lineSpacing v)).2 = none) ∧
    (∀ (k : ElemKey) (font : String),
      (∀ j : ElemKey,
        ((update_font s k font).1.style_config.getE j).font_family =
          if j = k then font else (s.style_config.getE j).font_family) ∧
      (∀ j : ElemKey,
        ((update_font s k font).1.style_config.getE j).font_size =
          (s.style_config.getE j).font_size) ∧
      (∀ j : ElemKey,
        ((update_font s k font).1.style_config.getE j).bold = (s.style_config.getE j).bold) ∧
      (∀ j : ElemKey,
        ((update_font s k font).1.style_config.getE j).alignment =
          (s.style_config.getE j).alignment) ∧
      (∀ j : ElemKey,
        ((update_font s k font).1.style_config.getE j).first_line_indent =
          (s.style_config.getE j).first_line_indent) ∧
      (update_font s k font).1.style_config.document = s.style_config.document ∧
      (update_font s k font).1.template_var = "custom" ∧
      (update_font s k font).2 = none) ∧
    (∀ (k : ElemKey) (size : Int),
      (∀ j : ElemKey,
        ((update_size s k size).1.style_config.getE j).font_size =
          if j = k then size else (s.style_config.getE j).font_size) ∧
      (∀ j : ElemKey,
        ((update_size s k size).1.style_config.getE j).font_family =
          (s.style_config.getE j).font_family) ∧
      (∀ j : ElemKey,
        ((update_size s k size).1.style_config.getE j).bold = (s.style_config.getE j).bold) ∧
      (∀ j : ElemKey,
        ((update_size s k size).1.style_config.getE j).alignment =
          (s.style_config.getE j).alignment) ∧
      (∀ j : ElemKey,
        ((update_size s k size).1.style_config.getE j).first_line_indent =
          (s.style_config.getE j).first_line_indent) ∧
      (update_size s k size).1.style_config.document = s.style_config.document ∧
      (update_size s k size).1.template_var = "custom" ∧
      (update_size s k size).2 = none) ∧
    (∀ (k : ElemKey) (b : Bool),
      (∀ j : ElemKey,
        ((update_bold s k b).1.style_config.getE j).bold =
          if j = k then b else (s.style_config.getE j).bold) ∧
      (∀ j : ElemKey,
        ((update_bold s k b).1.style_config.getE j).font_family =
          (s.style_config.getE j).font_family) ∧
      (∀ j : ElemKey,
        ((update_bold s k b).1.style_config.getE j).font_size =
          (s.style_config.getE j).font_size) ∧
      (∀ j : ElemKey,
        ((update_bold s k b).1.style_config.getE j).alignment =
          (s.style_config.getE j).alignment) ∧
      (∀ j : ElemKey,
        ((update_bold s k b).1.style_config.getE j).first_line_indent =
          (s.style_config.getE j).first_line_indent) ∧
      (update_bold s k b).1.style_config.document = s.style_config.document ∧
      (update_bold s k b).1.template_var = "custom" ∧
      (update_bold s k b).2 = none) ∧
    (∀ (k : ElemKey) (a : String),
      (∀ j : ElemKey,
        ((update_alignment s k a).1.style_config.getE j).alignment =
          if j = k then a else (s.style_config.getE j).alignment) ∧
      (∀ j : ElemKey,
        ((update_alignment s k a).1.style_config.getE j).font_family =
          (s.style_config.getE j).font_family) ∧
      (∀ j : ElemKey,
        ((update_alignment s k a).1.style_config.getE j).font_size =
          (s.style_config.getE j).font_size) ∧
      (∀ j : ElemKey,
        ((update_alignment s k a).1.style_config.getE j).bold =
          (s.style_config.getE j).bold) ∧
      (∀ j : ElemKey,
        ((update_alignment s k a).1.style_config.getE j).first_line_indent =
          (s.style_config.getE j).first_line_indent) ∧
      (update_alignment s k a).1.style_config.document = s.style_config.document ∧
      (update_alignment s k a).1.template_var = "custom" ∧
      (update_alignment s k a).2 = none) ∧
    (∀ checked : Bool,
      (∀ j : ElemKey,
        ((update_indent s checked).1.style_config.getE j).first_line_indent =
          if j = ElemKey.body then some (if checked then 2 else 0)
          else (s.style_config.getE j).first_line_indent) ∧
      (∀ j : ElemKey,
        ((update_indent s checked).1.style_config.getE j).font_family =
          (s.style_config.getE j).font_family) ∧
      (∀ j : ElemKey,
        ((update_indent s checked).1.style_config.getE j).font_size =
          (s.style_config.getE j).font_size) ∧
      (∀ j : ElemKey,
        ((update_indent s checked).1.style_config.getE j).bold =
          (s.style_config.getE j).bold) ∧
      (∀ j : ElemKey,
        ((update_indent s checked).1.style_config.getE j).alignment =
          (s.style_config.getE j).alignment) ∧
      (update_indent s checked).1.style_config.document = s.style_config.document ∧
      (update_indent s checked).1.template_var = "custom" ∧
      (update_indent s checked).2 = none) := by
  refine ⟨?_, ?_, ?_, ?_, ?_, ?_, ?_, ?_⟩
  · intro k v
    cases k <;>
      exact ⟨fun j => by cases j <;> rfl, rfl, rfl, rfl, fun e => by cases e <;> rfl, rfl, rfl⟩
  · intro v
    exact ⟨rfl, fun j => by cases j <;> rfl, rfl, rfl, fun e => by cases e <;> rfl, rfl, rfl⟩
  · intro v
    exact ⟨rfl, fun j => by cases j <;> rfl, rfl, rfl, fun e => by cases e <;> rfl, rfl, rfl⟩
  · intro k font
    cases k <;>
      exact ⟨fun j => by cases j <;> rfl, fun j => by cases j <;> rfl,
        fun j => by cases j <;> rfl, fun j => by cases j <;> rfl,
        fun j => by cases j <;> rfl, rfl, rfl, rfl⟩
  · intro k size
    cases k <;>
      exact ⟨fun j => by cases j <;> rfl, fun j => by cases j <;> rfl,
        fun j => by cases j <;> rfl, fun j => by cases j <;> rfl,
        fun j => by cases j <;> rfl, rfl, rfl, rfl⟩
  · intro k b
    cases k <;>
      exact ⟨fun j => by cases j <;> rfl, fun j => by cases j <;> rfl,
        fun j => by cases j <;> rfl, fun j => by cases j <;> rfl,
        fun j => by cases j <;> rfl, rfl, rfl, rfl⟩
  · intro k a
    cases k <;>
      exact ⟨fun j => by cases j <;> rfl, fun j => by cases j <;> rfl,
        fun j => by cases j <;> rfl, fun j => by cases j <;> rfl,
        fun j => by cases j <;> rfl, rfl, rfl, rfl⟩
  · intro checked
    exact ⟨fun j => by cases j <;> rfl, fun j => by cases j <;> rfl,
      fun j => by cases j <;> rfl, fun j => by cases j <;> rfl,
      fun j => by cases j <;> rfl, rfl, rfl, rfl⟩

/-- C2 is false as stated: typing "-1" into the top-margin spinbox
parses as the float -1, which `update_margin` writes verbatim — the
configuration changes to a domain-violating value and no `InvalidValue`
condition is surfaced. -/
theorem invalid_margin_written_cex :
    (step initState
        (.updateMargin .margin_top (some (mkRat (-1) 1)))).1.style_config.document.margin_top
      = mkRat (-1) 1 ∧
    (step initState (.updateMargin .margin_top (some (mkRat (-1) 1)))).2 = none ∧
    ¬ (step initState (.updateMargin .margin_top (some (mkRat (-1) 1)))).1.style_config
        = initState.style_config :=
  ⟨rfl, rfl, by decide⟩

/-- C2 (amended): the setters perform no domain validation and never
surface a condition.  A margin edit whose spinbox text fails float
parsing is silently dropped, leaving the whole state unchanged; any
value that parses — out-of-domain ones included — is written verbatim,
never coerced or clamped; an element size edit writes any integer
verbatim. -/
theorem setters_never_validate (s : GUIState) :
    (∀ k : MarginKey, update_margin s k none = (s, none)) ∧
    (∀ (k : MarginKey) (v : ℚ),
      (update_margin s k (some v)).1.style_config.document.getMargin k = v ∧
      (update_margin s k (some v)).2 = none) ∧
    (∀ (e : ElemKey) (n : Int),
      ((update_size s e n).1.style_config.getE e).font_size = n ∧
      (update_size s e n).2 = none) :=
  ⟨fun _ => rfl,
   fun k v => ⟨by cases k <;> rfl, rfl⟩,
   fun e n => ⟨by cases e <;> rfl, rfl⟩⟩

/-- C7 is false as stated: selecting a template name outside the three
built-ins leaves the configuration unchanged, but no `UnknownTemplate`
condition is surfaced — `on_template_change` falls through every branch
silently. -/
theorem unknown_template_silent_cex :
    (step initState (.selectTemplate "fancy")).2 = none ∧
    ¬ (step initState (.selectTemplate "fancy")).2 = some Condition.UnknownTemplate ∧
    (step initState (.selectTemplate "fancy")).1.style_config = initState.style_config :=
  ⟨rfl, by decide, rfl⟩

/-- C7 (amended): selecting any name outside {default, formal,
academic} is a silent no-op on the configuration: the live
configuration is unchanged, no condition is surfaced, and only the
label takes the new name. -/
theorem unknown_template_noop (s : GUIState) (t : String)
    (hd : t ≠ "default") (hf : t ≠ "formal") (ha : t ≠ "academic") :
    (step s (.selectTemplate t)).1.style_config = s.style_config ∧
    (step s (.selectTemplate t)).2 = none ∧
    (step s (.selectTemplate t)).1.template_var = t := by
  simp [step, on_template_change, hd, hf, ha]

/-- Witness for `unknown_template_noop` at the concrete name "fancy". -/
theorem unknown_template_noop_witness :
    (step initState (.selectTemplate "fancy")).1.style_config = initState.style_config ∧
    (step initState (.selectTemplate "fancy")).2 = none ∧
    (step initState (.selectTemplate "fancy")).1.template_var = "fancy" :=
  unknown_template_noop initState "fancy" (by decide) (by decide) (by decide)

/-- C8 is false as stated: select a file, type "-1" into the top-margin
spinbox — a reachable state whose configuration fails `validate` — and
`format_document` still invokes the formatter with that configuration;
nothing rejects the render request before the gateway call. -/
theorem render_with_invalid_config_cex :
    validate (run initState
        [.selectFile (some "notes.txt"),
         .updateMargin .margin_top (some (mkRat (-1) 1))]).style_config = false ∧
    format_document
        (run initState
          [.selectFile (some "notes.txt"),
           .updateMargin .margin_top (some (mkRat (-1) 1))])
        (some "out.docx") =
      some { config := (run initState
                [.selectFile (some "notes.txt"),
                 .updateMargin .margin_top (some (mkRat (-1) 1))]).style_config
             inputPath := "notes.txt", outputPath := "out.docx"
             fromWord := "notes.txt".endsWith ".docx" } :=
  ⟨rfl, rfl⟩

/-- C8 (amended): `format_document` performs no validation at all.
Whenever an input file is selected and an output path is chosen, the
formatter is invoked with the live configuration exactly as it is; the
only rejected requests are a missing input file or a cancelled save
dialog. -/
theorem format_document_never_validates (s : GUIState) (inp out : String) :
    format_document { s with input_file := some inp } (some out) =
      some { config := s.style_config, inputPath := inp, outputPath := out
             fromWord := inp.endsWith ".docx" } ∧
    format_document { s with input_file := some inp } none = none ∧
    (∀ o : Option String, format_document { s with input_file := none } o = none) :=
  ⟨rfl, rfl, fun _ => rfl⟩

/-- C10: `body.first_line_indent ∈ {0, 2}` holds initially (the default
template sets 2), is preserved by every GUI event — every template load
writes 2 and the indent checkbox writes 2 or 0 — and therefore holds in
every reachable state. -/
theorem first_line_indent_invariant :
    indentOK initState.style_config ∧
    (∀ (s : GUIState) (a : GUIAction),
      indentOK s.style_config → indentOK (step s a).1.style_config) ∧
    (∀ acts : List GUIAction, indentOK (run initState acts).style_config) := by
  have hinit : indentOK initState.style_config := Or.inr rfl
  have hstep : ∀ (s : GUIState) (a : GUIAction),
      indentOK s.style_config → indentOK (step s a).1.style_config := by
    intro s a h
    cases a with
    | selectTemplate t =>
      simp only [step, on_template_change]
      split
      · exact Or.inr rfl
      · split
        · exact Or.inr rfl
        · split
          · exact Or.inr rfl
          · exact h
    | resetClick => exact Or.inr rfl
    | updateMargin k parsed => cases parsed <;> exact h
    | docFontSizeSelected chosen => exact h
    | lineSpacingSelected v => exact h
    | updateFont k font => cases k <;> exact h
    | updateSize k size => cases k <;> exact h
    | updateBold k b => cases k <;> exact h
    | updateAlignment k a => cases k <;> exact h
    | updateIndent checked =>
      cases checked
      · exact Or.inl rfl
      · exact Or.inr rfl
    | selectFile f => cases f <;> exact h
  have hrun : ∀ (acts : List GUIAction) (s : GUIState),
      indentOK s.style_config → indentOK (run s acts).style_config := by
    intro acts
    induction acts with
    | nil => exact fun s h => h
    | cons a rest ih => exact fun s h => ih (step s a).1 (hstep s a h)
  exact ⟨hinit, hstep, fun acts => hrun acts initState hinit⟩

/-- Witness for `first_line_indent_invariant`: the preservation step
applied at the initial state to an indent-checkbox-off event. -/
theorem first_line_indent_invariant_witness :
    indentOK initState.style_config ∧
    indentOK (step initState (.updateIndent false)).1.style_config :=
  ⟨by decide,
   first_line_indent_invariant.2.1 initState (.updateIndent false) (by decide)⟩
